import Mathlib

/-!
Shallow embedding of the study-session core of the Anky flashcard app
(source file `study-manager.js`: the `StudySession` state machine and the
`StudyManager` wrapper).

Modelling conventions:
- JS numbers are modeled as exact rationals (ℚ).  Every numeric value this
  code manipulates (the session cursor, indices passed to `jumpToFlashcard`)
  is a JS number, and the arithmetic performed on it (increment by 1,
  decrement by 1, order comparisons) is exact on the values exercised, so ℚ
  is a faithful model of the reachable float behavior.
- `Math.round(x)` for the non-negative quotients arising here is
  `floor(x + 1/2)`; division-then-round is embedded as an exact integer
  computation of that floor.
- Timestamps (`new Date()`) are abstracted as natural numbers and supplied
  to each state-changing operation as an explicit `now` parameter.
- The flashcard type is an opaque parameter `α`: the session never inspects
  card contents, it only stores and returns them.
- JS objects returned by the operations are embedded as structures; fields
  that are absent on the failure path are modeled as `Option` fields.
-/

namespace Anky

/-- JS array indexing `l[q]` for a JS number `q`: yields the element when `q`
is a non-negative integer within bounds, and `undefined` (modeled as `none`)
otherwise. -/
def jsIndex {α : Type} (l : List α) (q : ℚ) : Option α :=
  if q.den = 1 ∧ 0 ≤ q.num then l[q.num.toNat]? else none

/-- The set of indices `{0, ..., n-1}` as JS numbers: the set of values added
by the loop `for (let i = 0; i < this.flashcards.length; i++)
this.reviewedCards.add(i)` in `completeSession` (study-manager.js:116-118). -/
def natRange (n : ℕ) : Finset ℚ :=
  (Finset.range n).map ⟨(fun k : ℕ => (k : ℚ)), fun a b h => Nat.cast_injective h⟩

/-- JS `Math.round(a / b)` for an integer numerator and positive integer
denominator: `floor(a/b + 1/2)`, computed as `(2a + b).fdiv (2b)`. -/
def jsRoundDiv (a : ℤ) (b : ℤ) : ℤ :=
  Int.fdiv (2 * a + b) (2 * b)

/-- State of a `StudySession` (study-manager.js:13-27): deck id, the private
card list, the cursor (a JS number), start/end timestamps, the completion
flag and the set of reviewed indices (JS numbers added to a `Set`). -/
@[ext]
structure StudySession (α : Type) where
  deckId : String
  flashcards : List α
  currentIndex : ℚ
  startTime : ℕ
  endTime : Option ℕ
  isComplete : Bool
  reviewedCards : Finset ℚ
deriving DecidableEq

namespace StudySession

variable {α : Type}

/-- The constructor (study-manager.js:19-27): `this.flashcards` receives a
copy of the card list (the spread `[...flashcards]` -- aliasing aspects are
modeled separately by `Heap` below), the cursor starts at 0, no end time,
not complete, empty reviewed set. -/
def init (deckId : String) (flashcards : List α) (now : ℕ) : StudySession α :=
  { deckId := deckId
    flashcards := flashcards
    currentIndex := 0
    startTime := now
    endTime := none
    isComplete := false
    reviewedCards := ∅ }

/-- `getCurrentFlashcard` (study-manager.js:33-38): `null` if the session is
complete or the cursor is past the end, otherwise `this.flashcards[cursor]`. -/
def getCurrentFlashcard (s : StudySession α) : Option α :=
  if s.isComplete = true ∨ (s.flashcards.length : ℚ) ≤ s.currentIndex then none
  else jsIndex s.flashcards s.currentIndex

/-- `completeSession` (study-manager.js:111-119): set the completion flag,
set the end time to now, and add every index `0 .. N-1` to the reviewed set. -/
def completeSession (now : ℕ) (s : StudySession α) : StudySession α :=
  { s with
    isComplete := true
    endTime := some now
    reviewedCards := s.reviewedCards ∪ natRange s.flashcards.length }

/-- `nextFlashcard` (study-manager.js:44-63): no-op returning `false` when
complete; otherwise add the cursor to the reviewed set when in bounds,
increment the cursor, and if the cursor reached the end complete the session
and return `false`, else return `true`. -/
def nextFlashcard (now : ℕ) (s : StudySession α) : Bool × StudySession α :=
  if s.isComplete = true then (false, s)
  else
    let s1 :=
      if s.currentIndex < (s.flashcards.length : ℚ) then
        { s with reviewedCards := insert s.currentIndex s.reviewedCards }
      else s
    let s2 := { s1 with currentIndex := s1.currentIndex + 1 }
    if (s2.flashcards.length : ℚ) ≤ s2.currentIndex then
      (false, s2.completeSession now)
    else (true, s2)

/-- `previousFlashcard` (study-manager.js:69-75): decrement the cursor and
return `true` when the cursor is positive, else return `false`. -/
def previousFlashcard (s : StudySession α) : Bool × StudySession α :=
  if 0 < s.currentIndex then
    (true, { s with currentIndex := s.currentIndex - 1 })
  else (false, s)

/-- `jumpToFlashcard` (study-manager.js:82-88): when the index is in
`[0, N)` and the session is not complete, set the cursor to it and return
`true`; otherwise return `false` with no state change. -/
def jumpToFlashcard (index : ℚ) (s : StudySession α) : Bool × StudySession α :=
  if 0 ≤ index ∧ index < (s.flashcards.length : ℚ) ∧ s.isComplete = false then
    (true, { s with currentIndex := index })
  else (false, s)

/-- The progress record returned by `getProgress` (study-manager.js:94-105). -/
structure Progress where
  currentIndex : ℚ
  totalCards : ℕ
  reviewedCount : ℕ
  percentComplete : ℕ
  isComplete : Bool
  hasNext : Bool
  hasPrevious : Bool
deriving DecidableEq

/-- `getProgress` (study-manager.js:94-105).  `percentComplete` is
`Math.round(reviewed / N * 100)` when `N > 0` (embedded as the exact
`floor(100 * reviewed / N + 1/2) = (200 * reviewed + N) / (2 * N)` in ℕ)
and `100` when `N = 0`.  `hasNext` is `cursor < N - 1` (array bound, not
completeness) and `hasPrevious` is `cursor > 0`. -/
def getProgress (s : StudySession α) : Progress :=
  { currentIndex := s.currentIndex
    totalCards := s.flashcards.length
    reviewedCount := s.reviewedCards.card
    percentComplete :=
      if 0 < s.flashcards.length then
        (200 * s.reviewedCards.card + s.flashcards.length) /
          (2 * s.flashcards.length)
      else 100
    isComplete := s.isComplete
    hasNext := decide (s.currentIndex < (s.flashcards.length : ℚ) - 1)
    hasPrevious := decide (0 < s.currentIndex) }

/-- The summary record returned by `getSessionSummary`
(study-manager.js:125-139). -/
structure Summary where
  deckId : String
  totalCards : ℕ
  reviewedCards : ℕ
  duration : ℤ
  startTime : ℕ
  endTime : Option ℕ
  isComplete : Bool
deriving DecidableEq

/-- `getSessionSummary` (study-manager.js:125-139): the duration is
`Math.round((end - start) / 1000)` using the end time when set and `now`
otherwise; the remaining fields are read off the state. -/
def getSessionSummary (now : ℕ) (s : StudySession α) : Summary :=
  let t : ℕ := match s.endTime with
    | some e => e
    | none => now
  { deckId := s.deckId
    totalCards := s.flashcards.length
    reviewedCards := s.reviewedCards.card
    duration := jsRoundDiv ((t : ℤ) - (s.startTime : ℤ)) 1000
    startTime := s.startTime
    endTime := s.endTime
    isComplete := s.isComplete }

/-- `reset` (study-manager.js:144-150): cursor to 0, completion flag off,
end time cleared, reviewed set emptied, start time reset to now. -/
def reset (now : ℕ) (s : StudySession α) : StudySession α :=
  { s with
    currentIndex := 0
    isComplete := false
    endTime := none
    reviewedCards := ∅
    startTime := now }

end StudySession

/-- One state-changing `StudySession` operation (the read-only operations
`getCurrentFlashcard`, `getProgress`, `getSessionSummary` do not change the
state and are therefore not listed).  Operations that can set a timestamp
carry their `now` value. -/
inductive Op where
  | next (now : ℕ)
  | prev
  | jump (index : ℚ)
  | forceComplete (now : ℕ)
  | reset (now : ℕ)
deriving DecidableEq

/-- Apply one operation to a session state. -/
def Op.apply {α : Type} : Op → StudySession α → StudySession α
  | .next now, s => (s.nextFlashcard now).2
  | .prev, s => s.previousFlashcard.2
  | .jump i, s => (s.jumpToFlashcard i).2
  | .forceComplete now, s => s.completeSession now
  | .reset now, s => s.reset now

/-- Whether the operation is `reset`. -/
def Op.isReset : Op → Bool
  | .reset _ => true
  | _ => false

/-- Run a sequence of operations from a state. -/
def runOps {α : Type} (ops : List Op) (s : StudySession α) : StudySession α :=
  ops.foldl (fun t op => op.apply t) s

/-- Iterate `nextFlashcard` (keeping the state component) `k` times with the
same clock value. -/
def advanceIter {α : Type} (now : ℕ) (s : StudySession α) : ℕ → StudySession α
  | 0 => s
  | k + 1 => ((advanceIter now s k).nextFlashcard now).2

/-- A deck record as far as the study core observes it: `loadDeck` results
are only tested for existence (study-manager.js:182-188). -/
structure Deck where
  id : String
  name : String
deriving DecidableEq

/-- The slice of the `DataService` collaborator the `StudyManager` uses:
`loadDeck` (deck or `null`) and `loadFlashcardsForDeck` (a card list). -/
structure DataService (α : Type) where
  loadDeck : String → Option Deck
  loadFlashcardsForDeck : String → List α

/-- The uniform `{success, ...payload, errors}` result shape returned by the
manager operations; `payload` is the success-only field of the operation. -/
structure MgrResult (β : Type) where
  success : Bool
  payload : Option β
  errors : List String
deriving DecidableEq

/-- Result shape of the manager's `nextFlashcard`
(study-manager.js:226-248), whose success payload is the pair of the
`hasNext` return value and the session's `isComplete` flag. -/
structure NextResult where
  success : Bool
  hasNext : Option Bool
  isComplete : Option Bool
  errors : List String
deriving DecidableEq

/-- The JS argument passed as a deck id: either a string or any non-string
value (`undefined`, `null`, a number, an object, ...). -/
inductive JSArg where
  | str (s : String)
  | nonString
deriving DecidableEq

/-- The JS argument passed as an index: either a number or any non-number
value. -/
inductive JSNum where
  | num (q : ℚ)
  | nonNumber
deriving DecidableEq

/-- `StudyManager` state (study-manager.js:157-165): the data service and
the at-most-one current session. -/
structure StudyManager (α : Type) where
  dataService : DataService α
  currentSession : Option (StudySession α)

namespace StudyManager

variable {α : Type}

/-- `startStudySession` (study-manager.js:172-212): reject a missing/
non-string/empty deck id (`!deckId || typeof deckId !== 'string'`), then a
deck id the store does not know, then an empty card list; otherwise build a
fresh session and make it current. -/
def startStudySession (arg : JSArg) (now : ℕ) (m : StudyManager α) :
    MgrResult (StudySession α) × StudyManager α :=
  match arg with
  | .nonString =>
      (⟨false, none, ["Deck ID is required and must be a string"]⟩, m)
  | .str deckId =>
      if deckId = "" then
        (⟨false, none, ["Deck ID is required and must be a string"]⟩, m)
      else
        match m.dataService.loadDeck deckId with
        | none => (⟨false, none, ["Deck not found"]⟩, m)
        | some _ =>
            let flashcards := m.dataService.loadFlashcardsForDeck deckId
            if flashcards.length = 0 then
              (⟨false, none, ["Deck contains no flashcards to study"]⟩, m)
            else
              let session := StudySession.init deckId flashcards now
              (⟨true, some session, []⟩,
               { m with currentSession := some session })

/-- Manager `nextFlashcard` (study-manager.js:226-248): `NoActiveSession`
failure when no session is current, otherwise delegate and report the
session return value as `hasNext` and the updated completion flag. -/
def nextFlashcard (now : ℕ) (m : StudyManager α) :
    NextResult × StudyManager α :=
  match m.currentSession with
  | none => (⟨false, none, none, ["No active study session"]⟩, m)
  | some s =>
      let r := s.nextFlashcard now
      (⟨true, some r.1, some r.2.isComplete, []⟩,
       { m with currentSession := some r.2 })

/-- Manager `previousFlashcard` (study-manager.js:254-275). -/
def previousFlashcard (m : StudyManager α) :
    MgrResult Bool × StudyManager α :=
  match m.currentSession with
  | none => (⟨false, none, ["No active study session"]⟩, m)
  | some s =>
      let r := s.previousFlashcard
      (⟨true, some r.1, []⟩, { m with currentSession := some r.2 })

/-- Manager `jumpToFlashcard` (study-manager.js:282-315): `NoActiveSession`
failure first; then the argument check `typeof index !== 'number' ||
index < 0`; then delegation to the session, turning a session-level `false`
into an `Invalid flashcard index or session is complete` failure. -/
def jumpToFlashcard (arg : JSNum) (m : StudyManager α) :
    MgrResult Unit × StudyManager α :=
  match m.currentSession with
  | none => (⟨false, none, ["No active study session"]⟩, m)
  | some s =>
      match arg with
      | .nonNumber =>
          (⟨false, none, ["Index must be a non-negative number"]⟩, m)
      | .num q =>
          if q < 0 then
            (⟨false, none, ["Index must be a non-negative number"]⟩, m)
          else
            let r := s.jumpToFlashcard q
            if r.1 = true then
              (⟨true, some (), []⟩, { m with currentSession := some r.2 })
            else
              (⟨false, none, ["Invalid flashcard index or session is complete"]⟩,
               { m with currentSession := some r.2 })

/-- Manager `completeSession` (study-manager.js:381-410): `NoActiveSession`
failure when none is current; otherwise force-complete the session when it
is not complete yet, return its summary, and clear the current session. -/
def completeSession (now : ℕ) (m : StudyManager α) :
    MgrResult StudySession.Summary × StudyManager α :=
  match m.currentSession with
  | none => (⟨false, none, ["No active study session"]⟩, m)
  | some s =>
      let s1 := if s.isComplete = true then s else s.completeSession now
      (⟨true, some (s1.getSessionSummary now), []⟩,
       { m with currentSession := none })

/-- Manager `endSession` (study-manager.js:442-464): `NoActiveSession`
failure when none is current; otherwise return the session's summary as-is
and clear the current session. -/
def endSession (now : ℕ) (m : StudyManager α) :
    MgrResult StudySession.Summary × StudyManager α :=
  match m.currentSession with
  | none => (⟨false, none, ["No active study session"]⟩, m)
  | some s =>
      (⟨true, some (s.getSessionSummary now), []⟩,
       { m with currentSession := none })

/-- Manager `resetSession` (study-manager.js:416-436). -/
def resetSession (now : ℕ) (m : StudyManager α) :
    MgrResult Unit × StudyManager α :=
  match m.currentSession with
  | none => (⟨false, none, ["No active study session"]⟩, m)
  | some s =>
      (⟨true, some (), []⟩, { m with currentSession := some (s.reset now) })

/-- `hasActiveSession` (study-manager.js:470-472). -/
def hasActiveSession (m : StudyManager α) : Bool :=
  m.currentSession.isSome

end StudyManager

/-- A minimal heap of JS arrays, for the aliasing behavior of the session
constructor: array references are indices into a list of cells. -/
structure Heap (α : Type) where
  cells : List (List α)

namespace Heap

variable {α : Type}

/-- Read the array behind a reference. -/
def read (h : Heap α) (r : ℕ) : List α :=
  (h.cells[r]?).getD []

/-- Allocate a fresh array holding the given contents and return its
reference. -/
def alloc (h : Heap α) (v : List α) : ℕ × Heap α :=
  (h.cells.length, ⟨h.cells ++ [v]⟩)

/-- Overwrite the array behind a reference in place. -/
def write (h : Heap α) (r : ℕ) (v : List α) : Heap α :=
  ⟨h.cells.set r v⟩

end Heap

/-- The constructor line `this.flashcards = [...flashcards]`
(study-manager.js:21) at the heap level: read the argument array, allocate a
fresh copy of its current contents for the session, and build the session
state over that snapshot.  Returns the fresh reference, the new heap, and
the session state. -/
def StudySession.initFromRef {α : Type} (deckId : String) (h : Heap α)
    (src : ℕ) (now : ℕ) : (ℕ × Heap α) × StudySession α :=
  let contents := h.read src
  (h.alloc contents, StudySession.init deckId contents now)

lemma natRange_zero : natRange 0 = ∅ := rfl

lemma natRange_succ (n : ℕ) : natRange (n + 1) = insert (n : ℚ) (natRange n) := by
  simp [natRange, Finset.range_succ, Finset.map_insert]

lemma card_natRange (n : ℕ) : (natRange n).card = n := by
  simp [natRange]

lemma natRange_mono {a b : ℕ} (h : a ≤ b) : natRange a ⊆ natRange b := by
  simp only [natRange]
  exact Finset.map_subset_map.mpr (Finset.range_subset.mpr h)

lemma natRange_union_of_le {a b : ℕ} (h : a ≤ b) :
    natRange a ∪ natRange b = natRange b :=
  Finset.union_eq_right.mpr (natRange_mono h)

/-- Closed form of the advance chain while the cursor has not reached the
end: after `k < N` calls, the cursor is `k`, the session is not complete and
the reviewed set is `{0, ..., k-1}`. -/
lemma advanceIter_eq_of_lt {α : Type} (d : String) (cards : List α)
    (t now : ℕ) {k : ℕ} (hk : k < cards.length) :
    advanceIter now (StudySession.init d cards t) k =
      ⟨d, cards, (k : ℚ), t, none, false, natRange k⟩ := by
  induction k with
  | zero =>
      simp [advanceIter, StudySession.init, natRange_zero]
  | succ k ih =>
      have hk' : k < cards.length := Nat.lt_of_succ_lt hk
      rw [advanceIter, ih hk']
      have h1 : (k : ℚ) < (cards.length : ℚ) := by exact_mod_cast hk'
      have h2 : ¬ ((cards.length : ℚ) ≤ (k : ℚ) + 1) := by
        have : ((k : ℚ) + 1 : ℚ) < (cards.length : ℚ) := by exact_mod_cast hk
        exact not_le.mpr this
      simp only [StudySession.nextFlashcard, if_pos h1, if_neg h2]
      simp [natRange_succ]

/-- Closed form of the advance chain once the cursor has reached the end:
after `k ≥ N ≥ 1` calls, the session is complete with cursor `N`, end time
set, and every index reviewed. -/
lemma advanceIter_eq_of_ge {α : Type} (d : String) (cards : List α)
    (t now : ℕ) (hN : 1 ≤ cards.length) {k : ℕ} (hk : cards.length ≤ k) :
    advanceIter now (StudySession.init d cards t) k =
      ⟨d, cards, (cards.length : ℚ), t, some now, true,
        natRange cards.length⟩ := by
  induction k with
  | zero => omega
  | succ k ih =>
      rcases Nat.lt_or_ge k cards.length with hlt | hge
      · have hlen : cards.length = k + 1 := by omega
        rw [advanceIter, advanceIter_eq_of_lt d cards t now hlt]
        have h1 : (k : ℚ) < (cards.length : ℚ) := by exact_mod_cast hlt
        have h2 : (cards.length : ℚ) ≤ (k : ℚ) + 1 := by
          rw [hlen]; push_cast; exact le_refl _
        simp only [StudySession.nextFlashcard, if_pos h1, if_pos h2,
          StudySession.completeSession]
        rw [if_neg (by simp : ¬ (false = true))]
        simp only [StudySession.mk.injEq, true_and, and_true]
        refine ⟨?_, ?_⟩
        · rw [hlen]; push_cast; ring
        · rw [hlen, ← natRange_succ]
          exact Finset.union_self _
      · rw [advanceIter, ih hge]
        simp [StudySession.nextFlashcard]

/-- On an active session whose cursor is below the end, `getCurrentFlashcard`
is the array access at the cursor. -/
lemma getCurrentFlashcard_eq {α : Type} (s : StudySession α)
    (hc : s.isComplete = false)
    (hq : s.currentIndex < (s.flashcards.length : ℚ)) :
    s.getCurrentFlashcard = jsIndex s.flashcards s.currentIndex := by
  have h : ¬ (s.isComplete = true
      ∨ (s.flashcards.length : ℚ) ≤ s.currentIndex) := by
    push_neg
    exact ⟨by simp [hc], hq⟩
  rw [StudySession.getCurrentFlashcard, if_neg h]

/-- With `1 ≤ N`, rounding `100 * N / N` to the nearest integer gives 100. -/
lemma percent_of_full (N : ℕ) (hN : 1 ≤ N) : (200 * N + N) / (2 * N) = 100 := by
  have h : 200 * N + N = N + 2 * N * 100 := by ring
  rw [h, Nat.add_mul_div_left _ _ (by omega : 0 < 2 * N),
    Nat.div_eq_of_lt (by omega)]

/-- Every state-changing session operation leaves the card list intact. -/
lemma Op.apply_flashcards {α : Type} (op : Op) (s : StudySession α) :
    (op.apply s).flashcards = s.flashcards := by
  cases op <;>
    simp only [Op.apply, StudySession.nextFlashcard,
      StudySession.previousFlashcard, StudySession.jumpToFlashcard,
      StudySession.completeSession, StudySession.reset] <;>
    split_ifs <;> rfl

/-- Running any operation sequence leaves the card list intact. -/
lemma runOps_flashcards {α : Type} (ops : List Op) (s : StudySession α) :
    (runOps ops s).flashcards = s.flashcards := by
  induction ops generalizing s with
  | nil => rfl
  | cons op ops ih =>
      show (runOps ops (op.apply s)).flashcards = s.flashcards
      rw [ih, Op.apply_flashcards]

/-- A concrete data service over ℕ-labeled cards, used to evaluate the
theorems on closed inputs. -/
def exampleDS : DataService ℕ where
  loadDeck := fun did => if did = "deck1" then some ⟨"deck1", "Deck One"⟩ else none
  loadFlashcardsForDeck := fun did => if did = "deck1" then [10, 20] else []

/-- A concrete manager whose current session studies the two cards `[10, 20]`. -/
def exampleMgr : StudyManager ℕ :=
  { dataService := exampleDS
    currentSession := some (StudySession.init "deck1" [10, 20] 0) }

/-- Claim C1: for every session built over a card list of length N ≥ 1,
calling advance() (`nextFlashcard`) exactly N times transitions the session
to Complete on the N-th call and never on any earlier call; each
non-terminal advance() marks the current cursor index as reviewed and
increments the cursor; and advance() on an already-Complete session is a
no-op returning `false` ("did not move"). -/
theorem claim_C1 {α : Type} (d : String) (cards : List α) (t now : ℕ)
    (hN : 1 ≤ cards.length) :
    (∀ k, k < cards.length →
      (advanceIter now (StudySession.init d cards t) k).isComplete = false)
    ∧ (advanceIter now (StudySession.init d cards t)
        cards.length).isComplete = true
    ∧ (∀ k, k < cards.length →
        ((advanceIter now (StudySession.init d cards t) k).nextFlashcard
            now).2.currentIndex
          = (advanceIter now (StudySession.init d cards t) k).currentIndex + 1
        ∧ ((advanceIter now (StudySession.init d cards t) k).nextFlashcard
            now).2.reviewedCards
          = insert (advanceIter now (StudySession.init d cards t)
                k).currentIndex
              (advanceIter now (StudySession.init d cards t) k).reviewedCards)
    ∧ (∀ s : StudySession α, s.isComplete = true →
        s.nextFlashcard now = (false, s)) := by
  refine ⟨?_, ?_, ?_, ?_⟩
  · intro k hk
    rw [advanceIter_eq_of_lt d cards t now hk]
  · rw [advanceIter_eq_of_ge d cards t now hN (le_refl _)]
  · intro k hk
    have hstep :
        ((advanceIter now (StudySession.init d cards t) k).nextFlashcard
          now).2 = advanceIter now (StudySession.init d cards t) (k + 1) :=
      rfl
    rw [hstep, advanceIter_eq_of_lt d cards t now hk]
    rcases Nat.lt_or_ge (k + 1) cards.length with h | h
    · rw [advanceIter_eq_of_lt d cards t now h]
      exact ⟨by push_cast; ring, natRange_succ k⟩
    · have hlen : cards.length = k + 1 := by omega
      rw [advanceIter_eq_of_ge d cards t now hN h]
      constructor
      · rw [hlen]; push_cast; ring
      · rw [hlen]; exact natRange_succ k
  · intro s hs
    simp [StudySession.nextFlashcard, hs]

/-- Claim C1 witness: on the concrete two-card deck, two advances complete
the session. -/
theorem claim_C1_witness :
    1 ≤ ([10, 20] : List ℕ).length ∧
      (advanceIter 7 (StudySession.init "deck1" [10, 20] 0) 2).isComplete
        = true :=
  ⟨by decide, (claim_C1 "deck1" [10, 20] 0 7 (by decide)).2.1⟩

/-- Claim C2: forceComplete() (`StudySession.completeSession`) is an
idempotent transition to Complete that does not move the cursor: it sets
the end time when unset, marks every index 0..N-1 as reviewed, and after
any number of preceding advance() calls `getProgress` reports
percentComplete = 100 and isComplete = true. -/
theorem claim_C2 {α : Type} (d : String) (cards : List α)
    (t now now2 k : ℕ) (s : StudySession α) (hN : 1 ≤ cards.length) :
    (s.completeSession now).isComplete = true
    ∧ (s.completeSession now).currentIndex = s.currentIndex
    ∧ (s.completeSession now).completeSession now2 = s.completeSession now2
    ∧ (s.endTime = none → (s.completeSession now).endTime = some now)
    ∧ natRange s.flashcards.length ⊆ (s.completeSession now).reviewedCards
    ∧ ((advanceIter now (StudySession.init d cards t)
          k).completeSession now2).getProgress.percentComplete = 100
    ∧ ((advanceIter now (StudySession.init d cards t)
          k).completeSession now2).getProgress.isComplete = true := by
  have hpos : 0 < cards.length := hN
  refine ⟨rfl, rfl, ?_, fun _ => rfl, ?_, ?_, ?_⟩
  · simp [StudySession.completeSession, Finset.union_assoc]
  · exact Finset.subset_union_right
  · rcases Nat.lt_or_ge k cards.length with h | h
    · rw [advanceIter_eq_of_lt d cards t now h]
      simp [StudySession.completeSession, StudySession.getProgress, hpos,
        natRange_union_of_le h.le, card_natRange, percent_of_full _ hN]
    · rw [advanceIter_eq_of_ge d cards t now hN h]
      simp [StudySession.completeSession, StudySession.getProgress, hpos,
        natRange_union_of_le (le_refl cards.length), card_natRange,
        percent_of_full _ hN]
  · rcases Nat.lt_or_ge k cards.length with h | h
    · rw [advanceIter_eq_of_lt d cards t now h]; rfl
    · rw [advanceIter_eq_of_ge d cards t now hN h]; rfl

/-- Claim C2 witness: after one advance on the two-card deck, force
completion yields 100 percent progress. -/
theorem claim_C2_witness :
    1 ≤ ([10, 20] : List ℕ).length ∧
      ((advanceIter 3 (StudySession.init "deck1" [10, 20] 0)
          1).completeSession 5).getProgress.percentComplete = 100 :=
  ⟨by decide,
    (claim_C2 "deck1" [10, 20] 0 3 5 1 (StudySession.init "x" [9] 0)
        (by decide)).2.2.2.2.2.1⟩

/-- Claim C4: session-level jumpTo(i) succeeds exactly when the session is
Active and 0 ≤ i < N, in which case it sets the cursor to i so that
current() is cards[i]; on an invalid index (such as -1 or N) or a terminal
session it fails and leaves the entire session state unchanged; and jumpTo
never changes the completion flag, so it never completes the session even
when the target is the last index. -/
theorem claim_C4 {α : Type} (s : StudySession α) (i : ℤ) :
    (s.isComplete = false → 0 ≤ i → i < (s.flashcards.length : ℤ) →
        (s.jumpToFlashcard (i : ℚ)).1 = true
      ∧ (s.jumpToFlashcard (i : ℚ)).2.currentIndex = (i : ℚ)
      ∧ (s.jumpToFlashcard (i : ℚ)).2.getCurrentFlashcard
          = s.flashcards[i.toNat]?)
    ∧ (s.isComplete = true ∨ i < 0 ∨ (s.flashcards.length : ℤ) ≤ i →
        s.jumpToFlashcard (i : ℚ) = (false, s))
    ∧ (∀ q : ℚ, (s.jumpToFlashcard q).2.isComplete = s.isComplete) := by
  refine ⟨?_, ?_, ?_⟩
  · intro hc h0 hlen
    have h0q : (0 : ℚ) ≤ (i : ℚ) := by exact_mod_cast h0
    have hlq : (i : ℚ) < (s.flashcards.length : ℚ) := by exact_mod_cast hlen
    have hcond : 0 ≤ (i : ℚ) ∧ (i : ℚ) < (s.flashcards.length : ℚ)
        ∧ s.isComplete = false := ⟨h0q, hlq, hc⟩
    rw [StudySession.jumpToFlashcard, if_pos hcond]
    refine ⟨rfl, rfl, ?_⟩
    show ({ s with currentIndex := (i : ℚ) } : StudySession α).getCurrentFlashcard
        = s.flashcards[i.toNat]?
    rw [getCurrentFlashcard_eq ({ s with currentIndex := (i : ℚ) }) hc hlq]
    show jsIndex s.flashcards (i : ℚ) = s.flashcards[i.toNat]?
    rw [jsIndex,
      if_pos ⟨Rat.den_intCast i, by rw [Rat.num_intCast]; exact h0⟩]
    rw [Rat.num_intCast]
  · intro h
    have hno : ¬ (0 ≤ (i : ℚ) ∧ (i : ℚ) < (s.flashcards.length : ℚ)
        ∧ s.isComplete = false) := by
      intro hcond
      rcases h with h | h | h
      · rw [h] at hcond
        simp at hcond
      · exact absurd hcond.1 (by exact_mod_cast not_le.mpr h)
      · exact absurd hcond.2.1 (by exact_mod_cast not_lt.mpr h)
    rw [StudySession.jumpToFlashcard, if_neg hno]
  · intro q
    rw [StudySession.jumpToFlashcard]
    split_ifs <;> rfl

/-- Claim C4 witness: on a fresh two-card session, jumping to index 1
succeeds. -/
theorem claim_C4_witness :
    (StudySession.init "d" ([5, 6] : List ℕ) 0).isComplete = false ∧
      ((StudySession.init "d" ([5, 6] : List ℕ) 0).jumpToFlashcard
          ((1 : ℤ) : ℚ)).1 = true :=
  ⟨by decide,
    ((claim_C4 (StudySession.init "d" [5, 6] 0) 1).1 (by decide) (by decide)
        (by decide)).1⟩

/-- Claim C8: resetToStart() (`StudySession.reset`), applied after any
sequence of state-changing navigation operations on a session built over at
least one card -- including on a Complete session -- restores the start
state: cursor 0, not complete, end time cleared, reviewed set empty; hence
afterwards current() is cards[0] and progress().reviewedCount is 0. -/
theorem claim_C8 {α : Type} (d : String) (cards : List α) (t t2 : ℕ)
    (ops : List Op) (hN : 1 ≤ cards.length) :
    ((runOps ops (StudySession.init d cards t)).reset t2).currentIndex = 0
    ∧ ((runOps ops (StudySession.init d cards t)).reset t2).isComplete = false
    ∧ ((runOps ops (StudySession.init d cards t)).reset t2).endTime = none
    ∧ ((runOps ops (StudySession.init d cards t)).reset t2).reviewedCards = ∅
    ∧ ((runOps ops (StudySession.init d cards t)).reset
        t2).getCurrentFlashcard = cards[0]?
    ∧ ((runOps ops (StudySession.init d cards t)).reset
        t2).getProgress.reviewedCount = 0 := by
  have hf : ((runOps ops (StudySession.init d cards t)).reset t2).flashcards
      = cards := runOps_flashcards ops _
  refine ⟨rfl, rfl, rfl, rfl, ?_, rfl⟩
  have hq : ((runOps ops (StudySession.init d cards t)).reset t2).currentIndex
      < ((((runOps ops (StudySession.init d cards t)).reset
          t2).flashcards.length : ℕ) : ℚ) := by
    rw [hf]
    show (0 : ℚ) < (cards.length : ℚ)
    exact_mod_cast hN
  rw [getCurrentFlashcard_eq _ rfl hq, hf]
  show jsIndex cards 0 = cards[0]?
  rw [jsIndex, if_pos ⟨rfl, le_refl 0⟩]
  rfl

/-- Claim C8 witness: after advancing, retreating and force-completing the
two-card session, reset restores the first card as current. -/
theorem claim_C8_witness :
    1 ≤ ([10, 20] : List ℕ).length ∧
      ((runOps [Op.next 1, Op.prev, Op.forceComplete 2]
          (StudySession.init "deck1" [10, 20] 0)).reset 9).getCurrentFlashcard
        = ([10, 20] : List ℕ)[0]? :=
  ⟨by decide,
    (claim_C8 "deck1" [10, 20] 0 9 [Op.next 1, Op.prev, Op.forceComplete 2]
        (by decide)).2.2.2.2.1⟩

/-- Claim C10 (implicit): once a session's completion flag is true, no
state-changing Session operation except reset() makes it false again; in
particular previousFlashcard() on a Complete session with positive cursor
still succeeds (returns true) and decrements the cursor, but the session
remains Complete, so getCurrentFlashcard() still returns none afterwards. -/
theorem claim_C10 {α : Type} (s : StudySession α) (op : Op) :
    (s.isComplete = true → op.isReset = false →
      (op.apply s).isComplete = true)
    ∧ (s.isComplete = true → 0 < s.currentIndex →
        s.previousFlashcard.1 = true
      ∧ s.previousFlashcard.2.currentIndex = s.currentIndex - 1
      ∧ s.previousFlashcard.2.isComplete = true
      ∧ s.previousFlashcard.2.getCurrentFlashcard = none) := by
  constructor
  · intro hs hr
    cases op with
    | next now => simp [Op.apply, StudySession.nextFlashcard, hs]
    | prev =>
        simp only [Op.apply, StudySession.previousFlashcard]
        split_ifs <;> exact hs
    | jump i =>
        simp only [Op.apply, StudySession.jumpToFlashcard]
        rw [if_neg]
        · exact hs
        · intro hcond
          rw [hs] at hcond
          simp at hcond
    | forceComplete now => rfl
    | reset now => simp [Op.isReset] at hr
  · intro hs hc
    rw [StudySession.previousFlashcard, if_pos hc]
    refine ⟨rfl, rfl, hs, ?_⟩
    show ({ s with currentIndex := s.currentIndex - 1 } :
        StudySession α).getCurrentFlashcard = none
    rw [StudySession.getCurrentFlashcard, if_pos (Or.inl hs)]

/-- Claim C10 witness: a completed two-card session with cursor 1 still
retreats successfully. -/
theorem claim_C10_witness :
    ((⟨"d", [1, 2], 1, 0, some 3, true, natRange 2⟩ :
        StudySession ℕ).isComplete = true)
    ∧ ((⟨"d", [1, 2], 1, 0, some 3, true, natRange 2⟩ :
        StudySession ℕ).previousFlashcard).1 = true :=
  ⟨rfl,
    ((claim_C10 (⟨"d", [1, 2], 1, 0, some 3, true, natRange 2⟩ :
        StudySession ℕ) Op.prev).2 rfl (by norm_num)).1⟩

/-- Reading the end of a one-element extension of a list. -/
lemma read_concat {α : Type} (l : List (List α)) (v : List α) :
    (l ++ [v])[l.length]? = some v := by
  rw [List.getElem?_append_right (le_refl _)]
  simp

/-- Claim C9: the session's card list is a private copy fixed at
session-creation time.  The constructor allocates a fresh array (reference
distinct from the source array), holding the source's contents at
construction time; overwriting the source array afterwards does not change
the session's array, and the session state answers from the snapshot under
any sequence of operations. -/
theorem claim_C9 {α : Type} (d : String) (h : Heap α) (src t : ℕ)
    (v : List α) (hsrc : src < h.cells.length) :
    ((StudySession.initFromRef d h src t).1.1 ≠ src)
    ∧ ((StudySession.initFromRef d h src t).1.2.read
        (StudySession.initFromRef d h src t).1.1 = h.read src)
    ∧ (((StudySession.initFromRef d h src t).1.2.write src v).read
        (StudySession.initFromRef d h src t).1.1 = h.read src)
    ∧ ((StudySession.initFromRef d h src t).2.flashcards = h.read src)
    ∧ (∀ ops : List Op,
        (runOps ops (StudySession.initFromRef d h src t).2).flashcards
          = h.read src) := by
  refine ⟨ne_of_gt hsrc, ?_, ?_, rfl, ?_⟩
  · show ((h.cells ++ [h.read src])[h.cells.length]?).getD [] = h.read src
    rw [read_concat]
    rfl
  · show (((h.cells ++ [h.read src]).set src
        v)[h.cells.length]?).getD [] = h.read src
    rw [List.getElem?_set_ne (ne_of_lt hsrc), read_concat]
    rfl
  · intro ops
    exact runOps_flashcards ops _

/-- Claim C9 witness: a concrete two-cell heap; the session built from cell
0 keeps its snapshot after cell 0 is overwritten. -/
theorem claim_C9_witness :
    (0 < (Heap.mk [[1, 2], [3]] : Heap ℕ).cells.length)
    ∧ (((StudySession.initFromRef "d" (Heap.mk [[1, 2], [3]]) 0 0).1.2.write
          0 [9]).read
        (StudySession.initFromRef "d" (Heap.mk [[1, 2], [3]] : Heap ℕ)
            0 0).1.1
      = (Heap.mk [[1, 2], [3]] : Heap ℕ).read 0) :=
  ⟨by decide,
    (claim_C9 "d" (Heap.mk [[1, 2], [3]]) 0 0 [9] (by decide)).2.2.1⟩

/-- Claim C5: Manager start fails with the invalid-argument error when the
deck id is missing/not a string, with the not-found error when the store has
no such deck, and with the empty-deck error when the deck has zero cards; in
every failure case the manager state (in particular a previously active
session) is unchanged -- the current-session reference only changes on a
successful start. -/
theorem claim_C5 {α : Type} (m : StudyManager α) (arg : JSArg) (t : ℕ) :
    (arg = JSArg.nonString →
      m.startStudySession arg t
        = (⟨false, none, ["Deck ID is required and must be a string"]⟩, m))
    ∧ (∀ did, arg = JSArg.str did → did ≠ "" →
        m.dataService.loadDeck did = none →
        m.startStudySession arg t = (⟨false, none, ["Deck not found"]⟩, m))
    ∧ (∀ did deck, arg = JSArg.str did → did ≠ "" →
        m.dataService.loadDeck did = some deck →
        m.dataService.loadFlashcardsForDeck did = [] →
        m.startStudySession arg t
          = (⟨false, none, ["Deck contains no flashcards to study"]⟩, m))
    ∧ ((m.startStudySession arg t).1.success = false →
        (m.startStudySession arg t).2.currentSession = m.currentSession) := by
  refine ⟨?_, ?_, ?_, ?_⟩
  · intro h
    subst h
    rfl
  · intro did h hne hload
    subst h
    simp [StudyManager.startStudySession, hne, hload]
  · intro did deck h hne hload hcards
    subst h
    simp [StudyManager.startStudySession, hne, hload, hcards]
  · cases arg with
    | nonString => intro _; rfl
    | str did =>
        by_cases hne : did = ""
        · intro _
          simp [StudyManager.startStudySession, hne]
        · cases hload : m.dataService.loadDeck did with
          | none =>
              intro _
              simp [StudyManager.startStudySession, hne, hload]
          | some deck =>
              by_cases hcards :
                  (m.dataService.loadFlashcardsForDeck did).length = 0
              · intro _
                simp [StudyManager.startStudySession, hne, hload, hcards]
              · intro hfail
                have hsucc : (m.startStudySession (JSArg.str did) t).1.success
                    = true := by
                  simp [StudyManager.startStudySession, hne, hload, hcards]
                rw [hsucc] at hfail
                simp at hfail

/-- Claim C5 witness: starting with an unknown deck id fails with the
not-found error and leaves the example manager (and its active session)
untouched. -/
theorem claim_C5_witness :
    ("nope" ≠ "" ∧ exampleMgr.dataService.loadDeck "nope" = none)
    ∧ exampleMgr.startStudySession (JSArg.str "nope") 4
        = (⟨false, none, ["Deck not found"]⟩, exampleMgr) :=
  ⟨⟨by decide, by decide⟩,
    (claim_C5 exampleMgr (JSArg.str "nope") 4).2.1 "nope" rfl (by decide)
      (by decide)⟩

/-- One advance on a one-card session: the card is marked reviewed, the
cursor reaches the end, and the session completes, returning false. -/
lemma next_one_card {α : Type} (did : String) (c : α) (t now : ℕ) :
    (StudySession.init did [c] t).nextFlashcard now
      = (false, ⟨did, [c], 1, t, some now, true, natRange 1⟩) := by
  simp only [StudySession.nextFlashcard, StudySession.init,
    StudySession.completeSession]
  norm_num
  rw [natRange_succ, natRange_zero]
  simp

/-- Claim C6: Manager complete() fails with the no-active-session error when
no session is current; otherwise it force-completes the session when needed,
returns the session's summary (whose isComplete is true), and clears the
current session reference, so hasActiveSession() is false afterwards.  For a
one-card deck: start succeeds, next() reports isComplete true and hasNext
false, and complete() succeeds with a summary whose reviewedCards is 1. -/
theorem claim_C6 {α : Type} (m : StudyManager α) (now t : ℕ) (did : String)
    (deck : Deck) (c : α) :
    (m.currentSession = none →
      m.completeSession now
        = (⟨false, none, ["No active study session"]⟩, m))
    ∧ (∀ s, m.currentSession = some s →
        (m.completeSession now).1.success = true
      ∧ (m.completeSession now).1.payload
          = some ((if s.isComplete = true then s
              else s.completeSession now).getSessionSummary now)
      ∧ ((m.completeSession now).1.payload.map
            StudySession.Summary.isComplete = some true)
      ∧ (m.completeSession now).2.currentSession = none
      ∧ (m.completeSession now).2.hasActiveSession = false)
    ∧ (did ≠ "" → m.dataService.loadDeck did = some deck →
        m.dataService.loadFlashcardsForDeck did = [c] →
        (m.startStudySession (JSArg.str did) t).1.success = true
      ∧ ((m.startStudySession (JSArg.str did) t).2.nextFlashcard
            now).1.hasNext = some false
      ∧ ((m.startStudySession (JSArg.str did) t).2.nextFlashcard
            now).1.isComplete = some true
      ∧ ((((m.startStudySession (JSArg.str did) t).2.nextFlashcard
            now).2.completeSession now).1.success = true)
      ∧ ((((m.startStudySession (JSArg.str did) t).2.nextFlashcard
            now).2.completeSession now).1.payload.map
              StudySession.Summary.reviewedCards = some 1)
      ∧ ((((m.startStudySession (JSArg.str did) t).2.nextFlashcard
            now).2.completeSession now).2.hasActiveSession = false)) := by
  refine ⟨?_, ?_, ?_⟩
  · intro h
    simp [StudyManager.completeSession, h]
  · intro s hs
    refine ⟨?_, ?_, ?_, ?_, ?_⟩
    · simp [StudyManager.completeSession, hs]
    · simp [StudyManager.completeSession, hs]
    · by_cases hc : s.isComplete = true
      · simp [StudyManager.completeSession, hs, hc,
          StudySession.getSessionSummary]
      · simp [StudyManager.completeSession, hs, hc,
          StudySession.getSessionSummary, StudySession.completeSession]
    · simp [StudyManager.completeSession, hs]
    · simp [StudyManager.completeSession, hs, StudyManager.hasActiveSession]
  · intro hne hload hcards
    have h1 : m.startStudySession (JSArg.str did) t
        = (⟨true, some (StudySession.init did [c] t), []⟩,
           { m with currentSession := some (StudySession.init did [c] t) }) := by
      simp [StudyManager.startStudySession, hne, hload, hcards]
    have h2 : (StudyManager.mk m.dataService
          (some (StudySession.init did [c] t))).nextFlashcard now
        = (⟨true, some false, some true, []⟩,
           StudyManager.mk m.dataService
             (some (StudySession.mk did [c] 1 t (some now) true
               (natRange 1)))) := by
      simp [StudyManager.nextFlashcard, next_one_card]
    have h3 : (StudyManager.mk m.dataService
          (some (StudySession.mk did [c] 1 t (some now) true
            (natRange 1)))).completeSession now
        = (⟨true, some ((StudySession.mk did [c] 1 t (some now) true
              (natRange 1)).getSessionSummary now), []⟩,
           StudyManager.mk m.dataService none) := by
      simp [StudyManager.completeSession]
    simp [h1, h2, h3, StudySession.getSessionSummary, card_natRange,
      StudyManager.hasActiveSession]

/-- Claim C6 witness: the one-card end-to-end run on a concrete store. -/
theorem claim_C6_witness :
    ("solo" ≠ "" ∧
      (DataService.mk (fun _ => some ⟨"solo", "Solo"⟩) (fun _ => [42]) :
          DataService ℕ).loadDeck "solo" = some ⟨"solo", "Solo"⟩ ∧
      (DataService.mk (fun _ => some ⟨"solo", "Solo"⟩) (fun _ => [42]) :
          DataService ℕ).loadFlashcardsForDeck "solo" = [42])
    ∧ ((StudyManager.mk
          (DataService.mk (fun _ => some ⟨"solo", "Solo"⟩) (fun _ => [42]))
          none).startStudySession (JSArg.str "solo") 0).1.success = true :=
  ⟨⟨by decide, rfl, rfl⟩,
    ((claim_C6 (StudyManager.mk
          (DataService.mk (fun _ => some ⟨"solo", "Solo"⟩) (fun _ => [42]))
          none) 5 0 "solo" ⟨"solo", "Solo"⟩ 42).2.2 (by decide) rfl rfl).1⟩

/-- Claim C7: Manager end() fails with the no-active-session error when no
session is current; otherwise it returns the session's summary as-is
(without force-completing: the summary's isComplete equals the session's
flag and its reviewedCards is the session's partial reviewed count) and
clears the current session reference. -/
theorem claim_C7 {α : Type} (m : StudyManager α) (now : ℕ) :
    (m.currentSession = none →
      m.endSession now = (⟨false, none, ["No active study session"]⟩, m))
    ∧ (∀ s, m.currentSession = some s →
        (m.endSession now).1.success = true
      ∧ (m.endSession now).1.payload = some (s.getSessionSummary now)
      ∧ ((m.endSession now).1.payload.map StudySession.Summary.isComplete
          = some s.isComplete)
      ∧ ((m.endSession now).1.payload.map StudySession.Summary.reviewedCards
          = some s.reviewedCards.card)
      ∧ (m.endSession now).2.currentSession = none
      ∧ (m.endSession now).2.hasActiveSession = false) := by
  constructor
  · intro h
    simp [StudyManager.endSession, h]
  · intro s hs
    refine ⟨?_, ?_, ?_, ?_, ?_, ?_⟩ <;>
      simp [StudyManager.endSession, hs, StudyManager.hasActiveSession,
        StudySession.getSessionSummary]

/-- Claim C7 witness: ending the example manager's in-progress session
returns an incomplete summary and clears the session. -/
theorem claim_C7_witness :
    exampleMgr.currentSession
        = some (StudySession.init "deck1" [10, 20] 0)
    ∧ ((exampleMgr.endSession 6).1.payload.map
          StudySession.Summary.isComplete = some false) :=
  ⟨rfl,
    ((claim_C7 exampleMgr 6).2 (StudySession.init "deck1" [10, 20] 0)
        rfl).2.2.1⟩

/-- Claim C3, amended: with a session current, Manager jumpTo(index) fails
with the invalid-argument error exactly when the index is not a number or is
a negative number, and this check happens before delegating (the result and
the manager state are exactly the pre-call ones, with the Manager-level
error message); a non-negative number -- integer or not -- is delegated to
the Session's own check, whose verdict becomes the call's success and whose
updated state becomes the current session. -/
theorem claim_C3_amended {α : Type} (m : StudyManager α)
    (s : StudySession α) (hs : m.currentSession = some s) :
    (m.jumpToFlashcard JSNum.nonNumber
        = (⟨false, none, ["Index must be a non-negative number"]⟩, m))
    ∧ (∀ q : ℚ, q < 0 →
        m.jumpToFlashcard (JSNum.num q)
          = (⟨false, none, ["Index must be a non-negative number"]⟩, m))
    ∧ (∀ q : ℚ, 0 ≤ q →
        (m.jumpToFlashcard (JSNum.num q)).1.success
            = (s.jumpToFlashcard q).1
        ∧ (m.jumpToFlashcard (JSNum.num q)).2.currentSession
            = some (s.jumpToFlashcard q).2) := by
  refine ⟨?_, ?_, ?_⟩
  · simp [StudyManager.jumpToFlashcard, hs]
  · intro q hq
    simp [StudyManager.jumpToFlashcard, hs, hq]
  · intro q hq
    have hq' : ¬ (q < 0) := not_lt.mpr hq
    by_cases hj : (s.jumpToFlashcard q).1 = true
    · simp [StudyManager.jumpToFlashcard, hs, hq', hj]
    · rw [Bool.not_eq_true] at hj
      simp [StudyManager.jumpToFlashcard, hs, hq', hj]

/-- Claim C3 amended witness: a negative index on the example manager fails
with the Manager-level error and changes nothing. -/
theorem claim_C3_amended_witness :
    (exampleMgr.currentSession
        = some (StudySession.init "deck1" [10, 20] 0) ∧ (-1 : ℚ) < 0)
    ∧ exampleMgr.jumpToFlashcard (JSNum.num (-1))
        = (⟨false, none, ["Index must be a non-negative number"]⟩,
           exampleMgr) :=
  ⟨⟨rfl, by norm_num⟩,
    (claim_C3_amended exampleMgr (StudySession.init "deck1" [10, 20] 0)
        rfl).2.1 (-1) (by norm_num)⟩

/-- Claim C3 counterexample: the index 3/2 is a non-negative non-integer
number, so by the claim the Manager call should fail with the
invalid-argument error and leave the session unchanged; instead the code's
check (`typeof index !== 'number' || index < 0`, study-manager.js:291) lets
it through, the Session accepts it (`1.5 < 2`), the call succeeds, and the
cursor becomes 3/2. -/
theorem claim_C3_counterexample :
    (exampleMgr.jumpToFlashcard (JSNum.num (3 / 2))).1.success = true
    ∧ (exampleMgr.jumpToFlashcard (JSNum.num (3 / 2))).2.currentSession
        ≠ exampleMgr.currentSession
    ∧ ((exampleMgr.jumpToFlashcard
        (JSNum.num (3 / 2))).2.currentSession.map
          StudySession.currentIndex) = some (3 / 2 : ℚ) := by
  have hq0 : ¬ ((3 / 2 : ℚ) < 0) := by norm_num
  have hcond : (0 : ℚ) ≤ 3 / 2
      ∧ (3 / 2 : ℚ) < (((StudySession.init "deck1" ([10, 20] : List ℕ)
          0).flashcards.length : ℕ) : ℚ)
      ∧ (StudySession.init "deck1" ([10, 20] : List ℕ) 0).isComplete
          = false := by
    refine ⟨by norm_num, ?_, rfl⟩
    show (3 / 2 : ℚ) < ((2 : ℕ) : ℚ)
    norm_num
  have h : exampleMgr.jumpToFlashcard (JSNum.num (3 / 2))
      = (⟨true, some (), []⟩,
         StudyManager.mk exampleDS
           (some (StudySession.mk "deck1" ([10, 20] : List ℕ) (3 / 2) 0
             none false ∅))) := by
    show (StudyManager.mk exampleDS
        (some (StudySession.init "deck1" [10, 20] 0))).jumpToFlashcard
          (JSNum.num (3 / 2)) = _
    simp only [StudyManager.jumpToFlashcard, if_neg hq0,
      StudySession.jumpToFlashcard, if_pos hcond]
    rfl
  rw [h]
  refine ⟨rfl, ?_, rfl⟩
  show some (StudySession.mk "deck1" ([10, 20] : List ℕ) (3 / 2) 0
      none false ∅)
    ≠ some (StudySession.init "deck1" [10, 20] 0)
  simp [StudySession.init, StudySession.mk.injEq]

end Anky
